import Mathlib

/-!
Shallow embedding of the two core subsystems of the react-d3-graph
repository: the selection store (selection.helper.js: class `Selection`)
and the link path-geometry engine (link.helper.js).

Modelling conventions:
* JavaScript numbers are modelled as rationals (`Rat`); `Math.sqrt` has no
  exact rational counterpart, so every function that calls it takes the
  square-root function as an explicit parameter `sqrt : Rat → Rat`.
  Division by zero in `Rat` yields 0 where JavaScript would yield
  `NaN`/`Infinity`; no property below exercises that difference.
* Node and link ids are opaque equality-comparable tokens, numeric or
  string: `Sum Rat String`.
* A JavaScript `Set` is an insertion-ordered collection without
  duplicates; it is modelled by the list of its members in insertion
  order.
* Code that can throw is modelled in `Except String`; a thrown
  `ReferenceError` becomes an `Except.error`.
-/

namespace ReactD3Graph

/-- A node or link id: numeric or string. -/
abbrev JsId := Sum Rat String

/-- Insertion-ordered set, mirroring a JavaScript `Set`: `elems` lists the
members in insertion order (a reachable set never holds duplicates). -/
structure JsSet (α : Type) where
  elems : List α
deriving DecidableEq

namespace JsSet

/-- A `new Set()` with no argument. -/
def empty {α : Type} : JsSet α := ⟨[]⟩

/-- JS `s.has(x)`. -/
def has {α : Type} [DecidableEq α] (s : JsSet α) (x : α) : Bool :=
  s.elems.contains x

/-- JS `s.add(x)`: appends `x` unless it is already present (a JS `Set`
keeps the first insertion position). -/
def add {α : Type} [DecidableEq α] (s : JsSet α) (x : α) : JsSet α :=
  if s.elems.contains x then s else ⟨s.elems ++ [x]⟩

/-- JS `s.delete(x)`: removes `x` if present, a no-op otherwise. -/
def delete {α : Type} [DecidableEq α] (s : JsSet α) (x : α) : JsSet α :=
  ⟨s.elems.erase x⟩

/-- JS `s.clear()`. -/
def clear {α : Type} (_ : JsSet α) : JsSet α := ⟨[]⟩

/-- A `new Set(iterable)`: inserts each element of the iterable in order. -/
def ofList {α : Type} [DecidableEq α] (l : List α) : JsSet α :=
  l.foldl add empty

end JsSet

/-- The selection store of selection.helper.js: a set of selected node ids
and a set of selected link ids. -/
structure Selection (α : Type) where
  nodes : JsSet α
  links : JsSet α
deriving DecidableEq

/-- The value `freeze()` returns: `Array.from` of each set, i.e. the two
member sequences in iteration (= insertion) order. -/
structure Snapshot (α : Type) where
  nodes : List α
  links : List α
deriving DecidableEq

namespace Selection

/-- The `constructor()`: both sets start empty. -/
def init {α : Type} : Selection α := ⟨JsSet.empty, JsSet.empty⟩

/-- `update(other)`: wholesale replacement with fresh copies of `other`'s
node and link sets (`new Set(other.nodes)`, `new Set(other.links)`). -/
def update {α : Type} [DecidableEq α] (_ : Selection α) (other : Selection α) : Selection α :=
  ⟨JsSet.ofList other.nodes.elems, JsSet.ofList other.links.elems⟩

/-- `linkIsSelected(linkId)`. -/
def linkIsSelected {α : Type} [DecidableEq α] (s : Selection α) (linkId : α) : Bool :=
  s.links.has linkId

/-- `nodeIsSelected(nodeId)`. -/
def nodeIsSelected {α : Type} [DecidableEq α] (s : Selection α) (nodeId : α) : Bool :=
  s.nodes.has nodeId

/-- `addLinks(linkIds)`: adds each id in order. -/
def addLinks {α : Type} [DecidableEq α] (s : Selection α) (linkIds : List α) : Selection α :=
  { s with links := linkIds.foldl JsSet.add s.links }

/-- `addLink(linkId)`, implemented as `addLinks([linkId])`. -/
def addLink {α : Type} [DecidableEq α] (s : Selection α) (linkId : α) : Selection α :=
  s.addLinks [linkId]

/-- `addNodes(nodeIds)`: adds each id in order. -/
def addNodes {α : Type} [DecidableEq α] (s : Selection α) (nodeIds : List α) : Selection α :=
  { s with nodes := nodeIds.foldl JsSet.add s.nodes }

/-- `addNode(nodeId)`, implemented as `addNodes([nodeId])`. -/
def addNode {α : Type} [DecidableEq α] (s : Selection α) (nodeId : α) : Selection α :=
  s.addNodes [nodeId]

/-- `removeLink(linkId)`. -/
def removeLink {α : Type} [DecidableEq α] (s : Selection α) (linkId : α) : Selection α :=
  { s with links := s.links.delete linkId }

/-- `removeNode(nodeId)`. -/
def removeNode {α : Type} [DecidableEq α] (s : Selection α) (nodeId : α) : Selection α :=
  { s with nodes := s.nodes.delete nodeId }

/-- `toggleLink(linkId)`: the membership test, then remove or add. -/
def toggleLink {α : Type} [DecidableEq α] (s : Selection α) (linkId : α) : Selection α :=
  if s.linkIsSelected linkId then s.removeLink linkId else s.addLink linkId

/-- `toggleNode(nodeId)`: the membership test, then remove or add. -/
def toggleNode {α : Type} [DecidableEq α] (s : Selection α) (nodeId : α) : Selection α :=
  if s.nodeIsSelected nodeId then s.removeNode nodeId else s.addNode nodeId

/-- `clear()`: empties both sets. -/
def clear {α : Type} (s : Selection α) : Selection α :=
  ⟨s.nodes.clear, s.links.clear⟩

/-- `freeze()`: the snapshot of both member sequences. -/
def freeze {α : Type} (s : Selection α) : Snapshot α :=
  ⟨s.nodes.elems, s.links.elems⟩

/-- The inner `eq(x, y)` helper of `Selection.equal` (lines 129–139 of the
source): false if the lengths differ, else a positional loop comparing
`x[i]` with `y[i]` for every index. -/
def seqEq {α : Type} [DecidableEq α] (x y : List α) : Bool :=
  if x.length ≠ y.length then false
  else (List.range x.length).all fun i => decide (x.get? i = y.get? i)

/-- `static equal(a, b)` on two frozen snapshots: positional comparison of
the node sequences and of the link sequences. -/
def equal {α : Type} [DecidableEq α] (a b : Snapshot α) : Bool :=
  seqEq a.nodes b.nodes && seqEq a.links b.links

end Selection

/-! Helper lemmas about the JsSet model. -/

lemma JsSet.has_iff_mem {α : Type} [DecidableEq α] (s : JsSet α) (x : α) :
    s.has x = true ↔ x ∈ s.elems := by
  simp [JsSet.has]

lemma JsSet.add_elems_of_mem {α : Type} [DecidableEq α] {s : JsSet α} {x : α}
    (h : x ∈ s.elems) : (s.add x).elems = s.elems := by
  simp [JsSet.add, h]

lemma JsSet.add_elems_of_not_mem {α : Type} [DecidableEq α] {s : JsSet α} {x : α}
    (h : x ∉ s.elems) : (s.add x).elems = s.elems ++ [x] := by
  simp [JsSet.add, h]

lemma Selection.addNode_nodes_elems {α : Type} [DecidableEq α] (s : Selection α) (id : α) :
    (s.addNode id).nodes = s.nodes.add id := rfl

lemma Selection.removeNode_nodes_elems {α : Type} [DecidableEq α] (s : Selection α) (id : α) :
    (s.removeNode id).nodes.elems = s.nodes.elems.erase id := rfl

/-- Positional sequence equality is list equality. -/
lemma Selection.seqEq_eq_true_iff {α : Type} [DecidableEq α] (x y : List α) :
    Selection.seqEq x y = true ↔ x = y := by
  constructor
  · intro h
    unfold Selection.seqEq at h
    by_cases hl : x.length ≠ y.length
    · simp [hl] at h
    · push_neg at hl
      rw [if_neg (by simpa using hl)] at h
      apply List.ext
      intro n
      by_cases hn : n < x.length
      · have hmem : n ∈ List.range x.length := List.mem_range.mpr hn
        have := List.all_eq_true.mp h n hmem
        exact of_decide_eq_true this
      · push_neg at hn
        rw [List.get?_eq_none.mpr hn, List.get?_eq_none.mpr (by omega)]
  · rintro rfl
    unfold Selection.seqEq
    simp

/-- Same length plus positional agreement below the length is list
equality. -/
lemma length_and_positional_iff {α : Type} (x y : List α) :
    (x.length = y.length ∧ ∀ i, i < x.length → x.get? i = y.get? i) ↔ x = y := by
  constructor
  · rintro ⟨hl, hp⟩
    apply List.ext
    intro n
    by_cases hn : n < x.length
    · exact hp n hn
    · push_neg at hn
      rw [List.get?_eq_none.mpr hn, List.get?_eq_none.mpr (by omega)]
  · rintro rfl
    exact ⟨rfl, fun _ _ => rfl⟩

/-- C1: `Selection.equal` on two frozen snapshots is true exactly when the
node sequences have equal length and agree at every position and likewise
the link sequences; and the comparison is positional, so two snapshots with
the same membership in a different order (here ["a","b"] versus ["b","a"])
are reported unequal. -/
theorem c1_freeze_equal_iff_positional (s t : Selection JsId) :
    (Selection.equal s.freeze t.freeze = true ↔
      (s.freeze.nodes.length = t.freeze.nodes.length ∧
        (∀ i, i < s.freeze.nodes.length → s.freeze.nodes.get? i = t.freeze.nodes.get? i) ∧
        s.freeze.links.length = t.freeze.links.length ∧
        (∀ i, i < s.freeze.links.length → s.freeze.links.get? i = t.freeze.links.get? i))) ∧
    Selection.equal (Snapshot.mk [Sum.inr "a", Sum.inr "b"] [] : Snapshot JsId)
        (Snapshot.mk [Sum.inr "b", Sum.inr "a"] []) = false := by
  constructor
  · unfold Selection.equal
    rw [Bool.and_eq_true, Selection.seqEq_eq_true_iff, Selection.seqEq_eq_true_iff]
    rw [← length_and_positional_iff s.freeze.nodes t.freeze.nodes,
      ← length_and_positional_iff s.freeze.links t.freeze.links]
    tauto
  · decide

/-- C7: toggling a node id twice restores its membership, and a single
toggle removes the id when present and adds it when absent. The hypothesis
that the node list holds no duplicates is the JS `Set` invariant, which
every reachable store satisfies. -/
theorem c7_toggleNode_involution {α : Type} [DecidableEq α] (s : Selection α) (id : α)
    (hnd : s.nodes.elems.Nodup) :
    ((s.toggleNode id).toggleNode id).nodeIsSelected id = s.nodeIsSelected id ∧
    (s.nodeIsSelected id = true → s.toggleNode id = s.removeNode id) ∧
    (s.nodeIsSelected id = false → s.toggleNode id = s.addNode id) := by
  refine ⟨?_, ?_, ?_⟩
  · by_cases hm : id ∈ s.nodes.elems
    · have h1 : s.nodeIsSelected id = true := by
        simpa [Selection.nodeIsSelected] using (JsSet.has_iff_mem s.nodes id).mpr hm
      have ht1 : s.toggleNode id = s.removeNode id := by
        unfold Selection.toggleNode
        rw [if_pos h1]
      have hout : id ∉ (s.removeNode id).nodes.elems := by
        rw [Selection.removeNode_nodes_elems]
        intro hin
        exact ((List.Nodup.mem_erase_iff hnd).mp hin).1 rfl
      have h2 : (s.removeNode id).nodeIsSelected id = false := by
        simp [Selection.nodeIsSelected, JsSet.has, hout]
      have ht2 : (s.removeNode id).toggleNode id = (s.removeNode id).addNode id := by
        unfold Selection.toggleNode
        rw [if_neg (by simp [h2])]
      rw [ht1, ht2]
      have h3 : ((s.removeNode id).addNode id).nodes.elems
          = (s.removeNode id).nodes.elems ++ [id] := by
        simpa [Selection.addNode, Selection.addNodes] using JsSet.add_elems_of_not_mem hout
      rw [h1]
      simp [Selection.nodeIsSelected, JsSet.has, h3]
    · have h1 : s.nodeIsSelected id = false := by
        simp [Selection.nodeIsSelected, JsSet.has, hm]
      have ht1 : s.toggleNode id = s.addNode id := by
        unfold Selection.toggleNode
        rw [if_neg (by simp [h1])]
      have hadd : (s.addNode id).nodes.elems = s.nodes.elems ++ [id] := by
        simpa [Selection.addNode, Selection.addNodes] using JsSet.add_elems_of_not_mem hm
      have hin : id ∈ (s.addNode id).nodes.elems := by
        rw [hadd]; simp
      have h2 : (s.addNode id).nodeIsSelected id = true := by
        simp [Selection.nodeIsSelected, JsSet.has, hin]
      have ht2 : (s.addNode id).toggleNode id = (s.addNode id).removeNode id := by
        unfold Selection.toggleNode
        rw [if_pos h2]
      rw [ht1, ht2]
      have herase : ((s.addNode id).removeNode id).nodes.elems = s.nodes.elems := by
        rw [Selection.removeNode_nodes_elems, hadd, List.erase_append_right _ hm]
        simp
      simp [Selection.nodeIsSelected, JsSet.has, herase, hm, h1]
  · intro h1
    unfold Selection.toggleNode
    rw [if_pos h1]
  · intro h1
    unfold Selection.toggleNode
    rw [if_neg (by simp [h1])]

/-- C7 witness: the involution and the remove/add equations at the concrete
store holding node "a" (and, via the false branch, at id "b"). -/
theorem c7_witness :
    ((((Selection.mk ⟨[Sum.inr "a"]⟩ ⟨[]⟩ :
        Selection JsId).toggleNode (Sum.inr "a")).toggleNode
          (Sum.inr "a")).nodeIsSelected (Sum.inr "a")
      = (Selection.mk ⟨[Sum.inr "a"]⟩ ⟨[]⟩ :
        Selection JsId).nodeIsSelected (Sum.inr "a")) ∧
    ((Selection.mk ⟨[Sum.inr "a"]⟩ ⟨[]⟩ : Selection JsId).nodeIsSelected (Sum.inr "a") = true →
      (Selection.mk ⟨[Sum.inr "a"]⟩ ⟨[]⟩ : Selection JsId).toggleNode (Sum.inr "a")
        = (Selection.mk ⟨[Sum.inr "a"]⟩ ⟨[]⟩ : Selection JsId).removeNode (Sum.inr "a")) ∧
    ((Selection.mk ⟨[Sum.inr "a"]⟩ ⟨[]⟩ : Selection JsId).nodeIsSelected (Sum.inr "a") = false →
      (Selection.mk ⟨[Sum.inr "a"]⟩ ⟨[]⟩ : Selection JsId).toggleNode (Sum.inr "a")
        = (Selection.mk ⟨[Sum.inr "a"]⟩ ⟨[]⟩ : Selection JsId).addNode (Sum.inr "a")) :=
  c7_toggleNode_involution (Selection.mk ⟨[Sum.inr "a"]⟩ ⟨[]⟩) (Sum.inr "a") (by decide)

/-- C9: each node-side mutation leaves the link set untouched and each
link-side mutation leaves the node set untouched (the membership queries
return a Bool and take no state at all); only `clear` and `update` write
both fields. -/
theorem c9_frame {α : Type} [DecidableEq α] (s : Selection α) (id : α) (ids : List α) :
    (s.addNode id).links = s.links ∧ (s.addNodes ids).links = s.links ∧
    (s.removeNode id).links = s.links ∧ (s.toggleNode id).links = s.links ∧
    (s.addLink id).nodes = s.nodes ∧ (s.addLinks ids).nodes = s.nodes ∧
    (s.removeLink id).nodes = s.nodes ∧ (s.toggleLink id).nodes = s.nodes := by
  unfold Selection.toggleNode Selection.toggleLink
  refine ⟨rfl, rfl, rfl, ?_, rfl, rfl, rfl, ?_⟩ <;> (split <;> rfl)

/-- One invocation of a selection-store operation (construction, the two
membership queries, the eight mutations, `clear`, `update`, `freeze` and
the static `equal`). -/
inductive SelOp (α : Type) where
  | construct : SelOp α
  | nodeIsSelectedQ : α → SelOp α
  | linkIsSelectedQ : α → SelOp α
  | addNodeOp : α → SelOp α
  | addNodesOp : List α → SelOp α
  | addLinkOp : α → SelOp α
  | addLinksOp : List α → SelOp α
  | removeNodeOp : α → SelOp α
  | removeLinkOp : α → SelOp α
  | toggleNodeOp : α → SelOp α
  | toggleLinkOp : α → SelOp α
  | clearOp : SelOp α
  | updateOp : Selection α → SelOp α
  | freezeOp : SelOp α
  | equalQ : Snapshot α → Snapshot α → SelOp α

/-- What a selection-store operation returns: a new store state, a Bool
answer, or a frozen snapshot. -/
inductive SelResult (α : Type) where
  | state : Selection α → SelResult α
  | answer : Bool → SelResult α
  | snap : Snapshot α → SelResult α

/-- Runs one store operation against state `s`. `Except` carries a thrown
JS error; every branch below is the (exception-free) body of the
corresponding source method. -/
def runSelOp {α : Type} [DecidableEq α] (op : SelOp α) (s : Selection α) :
    Except String (SelResult α) :=
  match op with
  | .construct => .ok (.state Selection.init)
  | .nodeIsSelectedQ id => .ok (.answer (s.nodeIsSelected id))
  | .linkIsSelectedQ id => .ok (.answer (s.linkIsSelected id))
  | .addNodeOp id => .ok (.state (s.addNode id))
  | .addNodesOp ids => .ok (.state (s.addNodes ids))
  | .addLinkOp id => .ok (.state (s.addLink id))
  | .addLinksOp ids => .ok (.state (s.addLinks ids))
  | .removeNodeOp id => .ok (.state (s.removeNode id))
  | .removeLinkOp id => .ok (.state (s.removeLink id))
  | .toggleNodeOp id => .ok (.state (s.toggleNode id))
  | .toggleLinkOp id => .ok (.state (s.toggleLink id))
  | .clearOp => .ok (.state s.clear)
  | .updateOp other => .ok (.state (s.update other))
  | .freezeOp => .ok (.snap s.freeze)
  | .equalQ a b => .ok (.answer (Selection.equal a b))

/-- Runs a whole sequence of store operations, threading any state a
mutation returns, and stops at the first thrown error. -/
def runSelOps {α : Type} [DecidableEq α] (ops : List (SelOp α)) (s : Selection α) :
    Except String (Selection α) :=
  match ops with
  | [] => .ok s
  | op :: rest =>
    match runSelOp op s with
    | .error e => .error e
    | .ok (.state s2) => runSelOps rest s2
    | .ok _ => runSelOps rest s

/-- C2: every selection-store operation, at any store state over numeric or
string ids, returns a result and never throws; consequently any sequence of
operations runs to completion. -/
theorem c2_all_operations_total :
    (∀ (op : SelOp JsId) (s : Selection JsId), ∃ r, runSelOp op s = Except.ok r) ∧
    (∀ (ops : List (SelOp JsId)) (s : Selection JsId),
      ∃ s2, runSelOps ops s = Except.ok s2) := by
  have hone : ∀ (op : SelOp JsId) (s : Selection JsId), ∃ r, runSelOp op s = Except.ok r := by
    intro op s
    cases op <;> exact ⟨_, rfl⟩
  refine ⟨hone, ?_⟩
  intro ops
  induction ops with
  | nil => intro s; exact ⟨s, rfl⟩
  | cons op rest ih =>
    intro s
    obtain ⟨r, hr⟩ := hone op s
    cases r with
    | state s2 => simpa [runSelOps, hr] using ih s2
    | answer b => simpa [runSelOps, hr] using ih s
    | snap f => simpa [runSelOps, hr] using ih s

/-! The link path-geometry engine (link.helper.js). -/

/-- A device-space point, `\x7bx: number, y: number\x7d`. -/
structure Point where
  x : Rat
  y : Rat
deriving DecidableEq

/-- Template-literal interpolation of a JS number into a path string. -/
def numStr (q : Rat) : String := toString q

/-- The per-index segments of `straightLineRadius` (lines 14–25): index 0
is a move command, every later index a line command. -/
def straightSegs : Nat → List Point → List String
  | _, [] => []
  | i, p :: rest =>
      ((if i = 0 then "M" else "L") ++ numStr p.x ++ "," ++ numStr p.y)
        :: straightSegs (i + 1) rest

/-- `straightLineRadius(points)`: the segments joined by single spaces. -/
def straightLineRadius (points : List Point) : String :=
  String.intercalate " " (straightSegs 0 points)

/-- The per-index segments of `smoothCurveRadius` after the first point
(lines 33–48): an arc whose radius is the distance from the previous
point. -/
def smoothSegs (sqrt : Rat → Rat) : Point → List Point → List String
  | _, [] => []
  | prev, p :: rest =>
      let dx := prev.x - p.x
      let dy := prev.y - p.y
      let radius := sqrt (dx * dx + dy * dy)
      ("A" ++ numStr radius ++ "," ++ numStr radius ++ " 0 0,1 " ++ numStr p.x ++ ","
          ++ numStr p.y)
        :: smoothSegs sqrt p rest

/-- `smoothCurveRadius(points)`. -/
def smoothCurveRadius (sqrt : Rat → Rat) (points : List Point) : String :=
  match points with
  | [] => ""
  | p :: rest =>
      String.intercalate " "
        (("M" ++ numStr p.x ++ "," ++ numStr p.y) :: smoothSegs sqrt p rest)

/-- The per-index segments of `fullCurveRadius` (lines 56–67): unit-radius
arcs after the initial move. -/
def fullSegs : Nat → List Point → List String
  | _, [] => []
  | i, p :: rest =>
      (if i = 0 then "M" ++ numStr p.x ++ "," ++ numStr p.y
       else "A1,1 0 0,1 " ++ numStr p.x ++ "," ++ numStr p.y)
        :: fullSegs (i + 1) rest

/-- `fullCurveRadius(points)`. -/
def fullCurveRadius (points : List Point) : String :=
  String.intercalate " " (fullSegs 0 points)

/-- `smooth3(p0, p1, p2)` (lines 69–85), transliterated: the two-segment
quadratic path through the middle point. Division by zero yields 0 in `Rat`
where JS would yield `NaN`; no property below depends on that case. -/
def smooth3 (sqrt : Rat → Rat) (p0 p1 p2 : Point) : String :=
  let length02 := sqrt ((p2.x - p0.x) ^ 2 + (p2.y - p0.y) ^ 2)
  let length01 := sqrt ((p1.x - p0.x) ^ 2 + (p1.y - p0.y) ^ 2)
  let length12 := sqrt ((p2.x - p1.x) ^ 2 + (p2.y - p1.y) ^ 2)
  let d : Point := ⟨(p2.x - p0.x) / length02, (p2.y - p0.y) / length02⟩
  let mid1 : Point := ⟨(p0.x + p1.x) / 2, (p0.y + p1.y) / 2⟩
  let mid2 : Point := ⟨(p1.x + p2.x) / 2, (p1.y + p2.y) / 2⟩
  let n1 : Point := ⟨(p0.y - p1.y) / length01, (p1.x - p0.x) / length01⟩
  let n2 : Point := ⟨(p1.y - p2.y) / length12, (p2.x - p1.x) / length12⟩
  let l1 : Point := ⟨p1.x - mid1.x, p1.y - mid1.y⟩
  let l2 : Point := ⟨p2.x - mid2.x, p2.y - mid2.y⟩
  let s1 := (n1.x * l1.y - n1.y * l1.x) / (d.x * n1.y - d.y * n1.x)
  let s2 := (n2.x * l2.y - n2.y * l2.x) / (d.x * n2.y - d.y * n2.x)
  let q1 : Point := ⟨p1.x + d.x * s1, p1.y + d.y * s1⟩
  let q2 : Point := ⟨p1.x - d.x * s2, p1.y - d.y * s2⟩
  String.intercalate " "
    ["M" ++ numStr p0.x ++ "," ++ numStr p0.y,
     "Q" ++ numStr q1.x ++ "," ++ numStr q1.y ++ " " ++ numStr p1.x ++ "," ++ numStr p1.y,
     "Q" ++ numStr q2.x ++ "," ++ numStr q2.y ++ " " ++ numStr p2.x ++ "," ++ numStr p2.y]

/-- The per-index segment of the general (4-or-more-point) branch of
`catmullRom` (lines 112–155): index 0 emits a move, index 1 and the last
index `fin` emit a `T` command, and every other index evaluates
`knotss[i + 1]` first thing after the point bindings — `knotss` is an
undefined identifier in the source (line 128), so that evaluation throws a
`ReferenceError` before any segment arithmetic happens. -/
def catmullSegs (fin : Nat) : Nat → List Point → Except String (List String)
  | _, [] => .ok []
  | i, p :: rest =>
      if i = 0 then
        (catmullSegs fin (i + 1) rest).map
          (fun l => ("M" ++ numStr p.x ++ "," ++ numStr p.y) :: l)
      else if i = 1 ∨ i = fin then
        (catmullSegs fin (i + 1) rest).map
          (fun l => ("T" ++ numStr p.x ++ "," ++ numStr p.y) :: l)
      else .error "ReferenceError: knotss is not defined"

/-- `catmullRom(points)` (lines 93–156): 2 points degrade to the straight
line, 3 points to `smooth3`, and 4 or more take the general branch. The
knot loop of lines 105–111 computes `Math.pow(length, alpha)` plus the last
knot for each interior point but never appends the value to `knots`, so
`knots` stays `[0]` and the loop has no observable effect; it (and its
`Math.sqrt` call) is therefore represented only by this comment, which is
why the `sqrt` argument goes unused in the general branch. -/
def catmullRom (sqrt : Rat → Rat) (points : List Point) : Except String String :=
  if points.length = 2 then .ok (straightLineRadius points)
  else if points.length = 3 then
    match points with
    | p0 :: p1 :: p2 :: _ => .ok (smooth3 sqrt p0 p1 p2)
    | _ => .ok ""
  else
    (catmullSegs (points.length - 1) 0 points).map (String.intercalate " ")

/-- Modelled from the spec: the curve-type enumeration `LINE_TYPES` lives
in link.const, a file not among those provided; the spec describes the
types as enumerated string tags `straight`, `smoothCurve`, `fullCurve` and
`catmullRom` with keys and values coinciding, unknown tags falling back to
`straight`. -/
def LINE_TYPES : List String := ["straight", "smoothCurve", "fullCurve", "catmullRom"]

/-- `LINE_TYPES[type] || LINE_TYPES.STRAIGHT` (line 246): a known tag maps
to itself, anything else to the straight tag. -/
def validLineType (type : String) : String :=
  if LINE_TYPES.contains type then type else "straight"

/-- `getRadiusStrategy` over the `RADIUS_STRATEGIES` table (lines 158–175):
tag-to-strategy dispatch with the straight line as fallback. The strategies
uniformly return `Except` because the Catmull-Rom one can throw. -/
def getRadiusStrategy (type : String) : (Rat → Rat) → List Point → Except String String :=
  if type = "smoothCurve" then fun sqrt ps => .ok (smoothCurveRadius sqrt ps)
  else if type = "fullCurve" then fun _ ps => .ok (fullCurveRadius ps)
  else if type = "catmullRom" then catmullRom
  else fun _ ps => .ok (straightLineRadius ps)

/-- The signed deviation index of parallel link `parallelIdx` among
`parallelCount` parallel links (lines 222–235): for even counts the indices
below the midpoint get `parallelIdx - mid` and those at or above it get
`parallelIdx - mid + 1`; for odd counts the middle link gets 0. -/
def parallelDeviationIdx (parallelCount parallelIdx : Int) : Int :=
  if parallelCount % 2 = 0 then
    let mid := parallelCount / 2
    if parallelIdx < mid then parallelIdx - mid else parallelIdx - mid + 1
  else
    let mid := (parallelCount - 1) / 2
    parallelIdx - mid

/-- `deviationSize` (lines 222–235): the deviation index times
`tightestArcDeviation = length * parallelSpread`. -/
def deviationSizeOf (length parallelSpread : Rat) (parallelCount parallelIdx : Int) : Rat :=
  (parallelDeviationIdx parallelCount parallelIdx : Rat) * (length * parallelSpread)

/-- JS `parallelCount > 1` where `parallelCount` may be `undefined`
(`undefined > 1` is false). -/
def someGtOne (parallelCount : Option Int) : Bool :=
  match parallelCount with
  | some c => decide (1 < c)
  | none => false

/-- Lines 218–244: with no break points and more than one parallel link,
synthesize a single break point off the chord midpoint along the normal;
below the 1e-5 epsilon no break point is produced. Parallel fields left
`undefined` by the caller are defaulted to 0 here; in JS they would
produce NaN coordinates, a case no well-formed caller reaches since the
rendering layer passes either the full parallel context or none of it. -/
def computeBreakPoints (sqrt : Rat → Rat) (sourceCoords targetCoords : Point)
    (breakPoints : List Point) (parallelIdx parallelCount : Option Int)
    (parallelSpread : Option Rat) : List Point :=
  if breakPoints.length = 0 ∧ someGtOne parallelCount = true then
    let sx := sourceCoords.x
    let sy := sourceCoords.y
    let tx := targetCoords.x
    let ty := targetCoords.y
    let length := sqrt (|sx - tx| ^ 2 + |sy - ty| ^ 2)
    let deviationSize :=
      deviationSizeOf length (parallelSpread.getD 0) (parallelCount.getD 0) (parallelIdx.getD 0)
    if |deviationSize| < 1 / 100000 then []
    else
      let midPt : Point := ⟨(sx + tx) / 2, (sy + ty) / 2⟩
      let dirVec : Point := ⟨(sy - ty) / length, (tx - sx) / length⟩
      [⟨midPt.x + dirVec.x * deviationSize, midPt.y + dirVec.y * deviationSize⟩]
  else breakPoints

/-- Modelled from the spec: the `SELF_LINK_DIRECTION` enumeration of
link.const (not among the provided files), a 4-way directional string-tag
enum `topLeft|topRight|bottomLeft|bottomRight` with default `topRight`. -/
def SELF_LINK_DIRECTION : List String := ["topLeft", "topRight", "bottomLeft", "bottomRight"]

/-- The self-link switch of `buildLinkPathDefinition` (lines 205–216): the
four fixed 40×30 elliptical arcs keyed by `selfLinkDirection`, the switch
default being the `topRight` arc. -/
def selfLinkArc (sourceCoords targetCoords : Point) (selfLinkDirection : String) : String :=
  let sx := sourceCoords.x
  let sy := sourceCoords.y
  let tx := targetCoords.x
  let ty := targetCoords.y
  let move := "M" ++ numStr sx ++ "," ++ numStr sy
  if selfLinkDirection = "topLeft" then
    move ++ " A40,30 45 1,1 " ++ numStr (tx + 1) ++ "," ++ numStr (ty - 1)
  else if selfLinkDirection = "bottomLeft" then
    move ++ " A40,30 -45 1,1 " ++ numStr (tx - 1) ++ "," ++ numStr (ty - 1)
  else if selfLinkDirection = "bottomRight" then
    move ++ " A40,30 45 1,1 " ++ numStr (tx - 1) ++ "," ++ numStr (ty + 1)
  else
    move ++ " A40,30 -45 1,1 " ++ numStr (tx + 1) ++ "," ++ numStr (ty + 1)

/-- The non-self-link fall-through of `buildLinkPathDefinition`
(lines 218–252): synthesize any parallel break point, validate the type,
pick the strategy and run it on source :: breakPoints ++ [target]. -/
def normalCurvePath (sqrt : Rat → Rat) (sourceCoords targetCoords : Point) (type : String)
    (breakPoints : List Point) (parallelIdx parallelCount : Option Int)
    (parallelSpread : Option Rat) : Except String String :=
  let bps := computeBreakPoints sqrt sourceCoords targetCoords breakPoints parallelIdx
    parallelCount parallelSpread
  let calcPathFn := getRadiusStrategy (validLineType type)
  let linkPoints := sourceCoords :: (bps ++ [targetCoords])
  calcPathFn sqrt linkPoints

/-- `buildLinkPathDefinition` (lines 191–253): the self-link branch exactly
when `sourceId === targetId && sx === tx && sy === ty`, else the normal
curve logic. -/
def buildLinkPathDefinition (sqrt : Rat → Rat) (sourceCoords targetCoords : Point)
    (type : String) (breakPoints : List Point) (sourceId targetId : JsId)
    (parallelIdx parallelCount : Option Int) (parallelSpread : Option Rat)
    (selfLinkDirection : String) : Except String String :=
  if sourceId = targetId ∧ sourceCoords.x = targetCoords.x ∧ sourceCoords.y = targetCoords.y
  then .ok (selfLinkArc sourceCoords targetCoords selfLinkDirection)
  else
    normalCurvePath sqrt sourceCoords targetCoords type breakPoints parallelIdx parallelCount
      parallelSpread

/-- The epsilon test passes whenever the deviation index is zero. -/
lemma computeBreakPoints_mid_of_three {sqrt : Rat → Rat} (sourceCoords targetCoords : Point)
    (parallelSpread : Rat) :
    computeBreakPoints sqrt sourceCoords targetCoords [] (some 1) (some 3)
      (some parallelSpread) = [] := by
  have hz : ∀ L : Rat, deviationSizeOf L parallelSpread 3 1 = 0 := by
    intro L
    simp [deviationSizeOf, show parallelDeviationIdx 3 1 = (0 : Int) from by decide]
  simp only [computeBreakPoints]
  rw [if_pos ⟨rfl, rfl⟩]
  simp only [Option.getD_some]
  rw [if_pos (by rw [hz]; norm_num)]

/-- With no parallel context (`parallelCount` undefined) no break point is
synthesized. -/
lemma computeBreakPoints_no_ctx {sqrt : Rat → Rat} (sourceCoords targetCoords : Point)
    (breakPoints : List Point) :
    computeBreakPoints sqrt sourceCoords targetCoords breakPoints none none none
      = breakPoints := by
  simp only [computeBreakPoints]
  rw [if_neg (fun hc => by simpa [someGtOne] using hc.2)]

/-- With a non-empty break-point list the parallel branch is skipped. -/
lemma computeBreakPoints_nonempty {sqrt : Rat → Rat} (sourceCoords targetCoords : Point)
    {breakPoints : List Point} (h : breakPoints ≠ []) (parallelIdx parallelCount : Option Int)
    (parallelSpread : Option Rat) :
    computeBreakPoints sqrt sourceCoords targetCoords breakPoints parallelIdx parallelCount
      parallelSpread = breakPoints := by
  have hl : ¬breakPoints.length = 0 := by simpa [List.length_eq_zero] using h
  simp only [computeBreakPoints]
  rw [if_neg (fun hc => hl hc.1)]

/-- C6: among 3 parallel links the middle one (`parallelIdx = 1`) gets
deviation index 0, the epsilon test therefore yields no synthetic break
point, and the path equals the one computed with no parallel context at
all, for every curve type and every pair of endpoints. -/
theorem c6_middle_of_three_plain (sqrt : Rat → Rat) (sourceCoords targetCoords : Point)
    (type : String) (sourceId targetId : JsId) (parallelSpread : Rat)
    (selfLinkDirection : String) :
    parallelDeviationIdx 3 1 = 0 ∧
    buildLinkPathDefinition sqrt sourceCoords targetCoords type [] sourceId targetId
        (some 1) (some 3) (some parallelSpread) selfLinkDirection =
      buildLinkPathDefinition sqrt sourceCoords targetCoords type [] sourceId targetId
        none none none selfLinkDirection := by
  refine ⟨by decide, ?_⟩
  unfold buildLinkPathDefinition
  by_cases hs : sourceId = targetId ∧ sourceCoords.x = targetCoords.x
      ∧ sourceCoords.y = targetCoords.y
  · rw [if_pos hs, if_pos hs]
  · rw [if_neg hs, if_neg hs]
    unfold normalCurvePath
    rw [computeBreakPoints_mid_of_three, computeBreakPoints_no_ctx]

/-- C10: as soon as the supplied break-point list is non-empty, the output
is independent of `parallelIdx`, `parallelCount` and `parallelSpread`: two
calls differing only in the parallel context return the same path. -/
theorem c10_breakpoints_shadow_parallel (sqrt : Rat → Rat) (sourceCoords targetCoords : Point)
    (type : String) (breakPoints : List Point) (sourceId targetId : JsId)
    (selfLinkDirection : String) (pIdx1 pCnt1 : Option Int) (pSpr1 : Option Rat)
    (pIdx2 pCnt2 : Option Int) (pSpr2 : Option Rat) (h : breakPoints ≠ []) :
    buildLinkPathDefinition sqrt sourceCoords targetCoords type breakPoints sourceId targetId
        pIdx1 pCnt1 pSpr1 selfLinkDirection =
      buildLinkPathDefinition sqrt sourceCoords targetCoords type breakPoints sourceId targetId
        pIdx2 pCnt2 pSpr2 selfLinkDirection := by
  unfold buildLinkPathDefinition
  by_cases hs : sourceId = targetId ∧ sourceCoords.x = targetCoords.x
      ∧ sourceCoords.y = targetCoords.y
  · rw [if_pos hs, if_pos hs]
  · rw [if_neg hs, if_neg hs]
    unfold normalCurvePath
    rw [computeBreakPoints_nonempty _ _ h, computeBreakPoints_nonempty _ _ h]

/-- C10 witness: concrete calls differing only in the parallel context,
with one break point, agree. -/
theorem c10_breakpoints_shadow_parallel_witness :
    buildLinkPathDefinition (fun q => q) ⟨0, 0⟩ ⟨1, 0⟩ "straight" [⟨5, 5⟩]
        (Sum.inr "a") (Sum.inr "b") (some 0) (some 2) (some 1) "topRight" =
      buildLinkPathDefinition (fun q => q) ⟨0, 0⟩ ⟨1, 0⟩ "straight" [⟨5, 5⟩]
        (Sum.inr "a") (Sum.inr "b") (some 1) (some 7) (some 3) "topRight" :=
  c10_breakpoints_shadow_parallel (fun q => q) ⟨0, 0⟩ ⟨1, 0⟩ "straight" [⟨5, 5⟩]
    (Sum.inr "a") (Sum.inr "b") "topRight" (some 0) (some 2) (some 1) (some 1) (some 7)
    (some 3) (by decide)

/-- C8: with the straight curve type, no break points and no parallel
context, any non-self-link call returns exactly a move to the source
followed by one line to the target. -/
theorem c8_straight_two_points (sqrt : Rat → Rat) (sourceCoords targetCoords : Point)
    (sourceId targetId : JsId) (selfLinkDirection : String)
    (h : ¬(sourceId = targetId ∧ sourceCoords.x = targetCoords.x
      ∧ sourceCoords.y = targetCoords.y)) :
    buildLinkPathDefinition sqrt sourceCoords targetCoords "straight" [] sourceId targetId
        none none none selfLinkDirection =
      Except.ok ("M" ++ numStr sourceCoords.x ++ "," ++ numStr sourceCoords.y ++ " "
        ++ ("L" ++ numStr targetCoords.x ++ "," ++ numStr targetCoords.y)) := by
  unfold buildLinkPathDefinition
  rw [if_neg h]
  rfl

/-- C8 witness: the straight two-point path at source (0,0), target (3,4)
and distinct string ids. -/
theorem c8_straight_two_points_witness :
    buildLinkPathDefinition (fun q => q) ⟨0, 0⟩ ⟨3, 4⟩ "straight" [] (Sum.inr "a")
        (Sum.inr "b") none none none "topRight" =
      Except.ok ("M" ++ numStr 0 ++ "," ++ numStr 0 ++ " "
        ++ ("L" ++ numStr 3 ++ "," ++ numStr 4)) :=
  c8_straight_two_points (fun q => q) ⟨0, 0⟩ ⟨3, 4⟩ (Sum.inr "a") (Sum.inr "b") "topRight"
    (by decide)

/-- C5: the self-link branch fires exactly when the ids coincide and both
coordinates coincide; it returns the four fixed 40×30 arcs keyed by the
direction tag, any unknown tag getting the `topRight` arc; with identical
ids but different coordinates the call falls through to the normal curve
logic; and with distinct ids the branch is not taken either, even when
source and target sit on the very same point `p`. -/
theorem c5_self_link_branch (sqrt : Rat → Rat) (p sourceCoords targetCoords : Point)
    (type : String) (breakPoints : List Point) (nodeId sourceId targetId : JsId)
    (parallelIdx parallelCount : Option Int) (parallelSpread : Option Rat)
    (selfLinkDirection : String)
    (hd1 : selfLinkDirection ≠ "topLeft") (hd2 : selfLinkDirection ≠ "bottomLeft")
    (hd3 : selfLinkDirection ≠ "bottomRight")
    (hne : ¬(sourceCoords.x = targetCoords.x ∧ sourceCoords.y = targetCoords.y))
    (hid : sourceId ≠ targetId) :
    buildLinkPathDefinition sqrt p p type breakPoints nodeId nodeId parallelIdx parallelCount
        parallelSpread "topLeft" =
      Except.ok ("M" ++ numStr p.x ++ "," ++ numStr p.y ++ " A40,30 45 1,1 "
        ++ numStr (p.x + 1) ++ "," ++ numStr (p.y - 1)) ∧
    buildLinkPathDefinition sqrt p p type breakPoints nodeId nodeId parallelIdx parallelCount
        parallelSpread "bottomLeft" =
      Except.ok ("M" ++ numStr p.x ++ "," ++ numStr p.y ++ " A40,30 -45 1,1 "
        ++ numStr (p.x - 1) ++ "," ++ numStr (p.y - 1)) ∧
    buildLinkPathDefinition sqrt p p type breakPoints nodeId nodeId parallelIdx parallelCount
        parallelSpread "bottomRight" =
      Except.ok ("M" ++ numStr p.x ++ "," ++ numStr p.y ++ " A40,30 45 1,1 "
        ++ numStr (p.x - 1) ++ "," ++ numStr (p.y + 1)) ∧
    buildLinkPathDefinition sqrt p p type breakPoints nodeId nodeId parallelIdx parallelCount
        parallelSpread "topRight" =
      Except.ok ("M" ++ numStr p.x ++ "," ++ numStr p.y ++ " A40,30 -45 1,1 "
        ++ numStr (p.x + 1) ++ "," ++ numStr (p.y + 1)) ∧
    buildLinkPathDefinition sqrt p p type breakPoints nodeId nodeId parallelIdx parallelCount
        parallelSpread selfLinkDirection =
      Except.ok ("M" ++ numStr p.x ++ "," ++ numStr p.y ++ " A40,30 -45 1,1 "
        ++ numStr (p.x + 1) ++ "," ++ numStr (p.y + 1)) ∧
    buildLinkPathDefinition sqrt sourceCoords targetCoords type breakPoints nodeId nodeId
        parallelIdx parallelCount parallelSpread selfLinkDirection =
      normalCurvePath sqrt sourceCoords targetCoords type breakPoints parallelIdx
        parallelCount parallelSpread ∧
    buildLinkPathDefinition sqrt p p type breakPoints sourceId targetId
        parallelIdx parallelCount parallelSpread selfLinkDirection =
      normalCurvePath sqrt p p type breakPoints parallelIdx
        parallelCount parallelSpread := by
  refine ⟨?_, ?_, ?_, ?_, ?_, ?_, ?_⟩
  · unfold buildLinkPathDefinition
    rw [if_pos ⟨rfl, rfl, rfl⟩]
    rfl
  · unfold buildLinkPathDefinition
    rw [if_pos ⟨rfl, rfl, rfl⟩]
    rfl
  · unfold buildLinkPathDefinition
    rw [if_pos ⟨rfl, rfl, rfl⟩]
    rfl
  · unfold buildLinkPathDefinition
    rw [if_pos ⟨rfl, rfl, rfl⟩]
    rfl
  · unfold buildLinkPathDefinition
    rw [if_pos ⟨rfl, rfl, rfl⟩]
    unfold selfLinkArc
    rw [if_neg hd1, if_neg hd2, if_neg hd3]
  · unfold buildLinkPathDefinition
    rw [if_neg (fun hc => hne hc.2)]
  · unfold buildLinkPathDefinition
    rw [if_neg (fun hc => hid hc.1)]

/-- C5 witness: the seven equations at the point (2,3), endpoints (0,0)
and (1,0), ids "n" and "m", an unknown direction tag and the straight
type; the last conjunct puts the distinct ids "n" and "m" on the same
point (2,3) and still lands in the normal curve logic. -/
theorem c5_self_link_branch_witness :
    buildLinkPathDefinition (fun q => q) ⟨2, 3⟩ ⟨2, 3⟩ "straight" [] (Sum.inr "n")
        (Sum.inr "n") none none none "topLeft" =
      Except.ok ("M" ++ numStr 2 ++ "," ++ numStr 3 ++ " A40,30 45 1,1 "
        ++ numStr ((2 : Rat) + 1) ++ "," ++ numStr ((3 : Rat) - 1)) ∧
    buildLinkPathDefinition (fun q => q) ⟨2, 3⟩ ⟨2, 3⟩ "straight" [] (Sum.inr "n")
        (Sum.inr "n") none none none "bottomLeft" =
      Except.ok ("M" ++ numStr 2 ++ "," ++ numStr 3 ++ " A40,30 -45 1,1 "
        ++ numStr ((2 : Rat) - 1) ++ "," ++ numStr ((3 : Rat) - 1)) ∧
    buildLinkPathDefinition (fun q => q) ⟨2, 3⟩ ⟨2, 3⟩ "straight" [] (Sum.inr "n")
        (Sum.inr "n") none none none "bottomRight" =
      Except.ok ("M" ++ numStr 2 ++ "," ++ numStr 3 ++ " A40,30 45 1,1 "
        ++ numStr ((2 : Rat) - 1) ++ "," ++ numStr ((3 : Rat) + 1)) ∧
    buildLinkPathDefinition (fun q => q) ⟨2, 3⟩ ⟨2, 3⟩ "straight" [] (Sum.inr "n")
        (Sum.inr "n") none none none "topRight" =
      Except.ok ("M" ++ numStr 2 ++ "," ++ numStr 3 ++ " A40,30 -45 1,1 "
        ++ numStr ((2 : Rat) + 1) ++ "," ++ numStr ((3 : Rat) + 1)) ∧
    buildLinkPathDefinition (fun q => q) ⟨2, 3⟩ ⟨2, 3⟩ "straight" [] (Sum.inr "n")
        (Sum.inr "n") none none none "someOtherTag" =
      Except.ok ("M" ++ numStr 2 ++ "," ++ numStr 3 ++ " A40,30 -45 1,1 "
        ++ numStr ((2 : Rat) + 1) ++ "," ++ numStr ((3 : Rat) + 1)) ∧
    buildLinkPathDefinition (fun q => q) ⟨0, 0⟩ ⟨1, 0⟩ "straight" [] (Sum.inr "n")
        (Sum.inr "n") none none none "someOtherTag" =
      normalCurvePath (fun q => q) ⟨0, 0⟩ ⟨1, 0⟩ "straight" [] none none none ∧
    buildLinkPathDefinition (fun q => q) ⟨2, 3⟩ ⟨2, 3⟩ "straight" [] (Sum.inr "n")
        (Sum.inr "m") none none none "someOtherTag" =
      normalCurvePath (fun q => q) ⟨2, 3⟩ ⟨2, 3⟩ "straight" [] none none none :=
  c5_self_link_branch (fun q => q) ⟨2, 3⟩ ⟨0, 0⟩ ⟨1, 0⟩ "straight" [] (Sum.inr "n")
    (Sum.inr "n") (Sum.inr "m") none none none "someOtherTag"
    (by decide) (by decide) (by decide) (by decide) (by decide)

/-- C3: the general branch of `catmullRom` throws the moment it reaches an
interior index: at four collinear points, and equally through
`buildLinkPathDefinition` with the catmullRom type and two break points,
the result is the `ReferenceError` for the undefined identifier `knotss`
rather than a path string. -/
theorem c3_catmullRom_four_points_throws :
    catmullRom (fun q => q) [⟨0, 0⟩, ⟨1, 0⟩, ⟨2, 0⟩, ⟨3, 0⟩] =
      Except.error "ReferenceError: knotss is not defined" ∧
    buildLinkPathDefinition (fun q => q) ⟨0, 0⟩ ⟨3, 0⟩ "catmullRom" [⟨1, 0⟩, ⟨2, 0⟩]
        (Sum.inr "a") (Sum.inr "b") none none none "topRight" =
      Except.error "ReferenceError: knotss is not defined" := by
  exact ⟨rfl, rfl⟩

/-- C4 counterexample: for `parallelCount = 2` the code's deviation indices
are -1 and +1, not -0.5 and +0.5, and at `length = 1`, `parallelSpread = 1`
the deviation sizes are -1 and 1, whose magnitude is not
`0.5 * length * parallelSpread`. -/
theorem c4_counterexample_parallel_two :
    parallelDeviationIdx 2 0 = -1 ∧ parallelDeviationIdx 2 1 = 1 ∧
    deviationSizeOf 1 1 2 0 = -1 ∧ deviationSizeOf 1 1 2 1 = 1 ∧
    ¬|deviationSizeOf 1 1 2 0| = (1 / 2 : Rat) * (1 * 1) := by
  refine ⟨by decide, by decide, ?_, ?_, ?_⟩
  · norm_num [deviationSizeOf, show parallelDeviationIdx 2 0 = (-1 : Int) from by decide]
  · norm_num [deviationSizeOf, show parallelDeviationIdx 2 1 = (1 : Int) from by decide]
  · norm_num [deviationSizeOf, show parallelDeviationIdx 2 0 = (-1 : Int) from by decide]

/-- C4 (amended): for an even `parallelCount` of at least 2 the deviation
indices are `parallelIdx - parallelCount/2` below the midpoint and
`parallelIdx - parallelCount/2 + 1` at or above it — that is, the centered
index `parallelIdx - (parallelCount-1)/2` shifted by -0.5 resp. +0.5 — so
they are symmetric about the midpoint with none centered; for
`parallelCount = 2` the two links get deviation indices -1 and +1 and their
deviation sizes are nonzero, oppositely signed and of equal magnitude
`1 * length * parallelSpread`. -/
theorem c4_even_parallel_amended (parallelCount parallelIdx : Int)
    (length parallelSpread : Rat) (heven : parallelCount % 2 = 0)
    (hc2 : 2 ≤ parallelCount) (hi0 : 0 ≤ parallelIdx) (hilt : parallelIdx < parallelCount)
    (hL : 0 < length) (hS : 0 < parallelSpread) :
    (parallelIdx < parallelCount / 2 →
      parallelDeviationIdx parallelCount parallelIdx = parallelIdx - parallelCount / 2) ∧
    (parallelCount / 2 ≤ parallelIdx →
      parallelDeviationIdx parallelCount parallelIdx = parallelIdx - parallelCount / 2 + 1) ∧
    parallelDeviationIdx parallelCount parallelIdx ≠ 0 ∧
    parallelDeviationIdx parallelCount (parallelCount - 1 - parallelIdx) =
      -parallelDeviationIdx parallelCount parallelIdx ∧
    parallelDeviationIdx 2 0 = -1 ∧ parallelDeviationIdx 2 1 = 1 ∧
    deviationSizeOf length parallelSpread 2 0 < 0 ∧
    0 < deviationSizeOf length parallelSpread 2 1 ∧
    |deviationSizeOf length parallelSpread 2 0| = 1 * (length * parallelSpread) ∧
    |deviationSizeOf length parallelSpread 2 1| = 1 * (length * parallelSpread) := by
  have hval : ∀ j : Int, parallelDeviationIdx parallelCount j =
      if j < parallelCount / 2 then j - parallelCount / 2 else j - parallelCount / 2 + 1 := by
    intro j
    simp only [parallelDeviationIdx, if_pos heven]
  have hLS : 0 < length * parallelSpread := mul_pos hL hS
  have hd0 : deviationSizeOf length parallelSpread 2 0 = -(length * parallelSpread) := by
    norm_num [deviationSizeOf, show parallelDeviationIdx 2 0 = (-1 : Int) from by decide]
  have hd1 : deviationSizeOf length parallelSpread 2 1 = length * parallelSpread := by
    norm_num [deviationSizeOf, show parallelDeviationIdx 2 1 = (1 : Int) from by decide]
  refine ⟨?_, ?_, ?_, ?_, by decide, by decide, ?_, ?_, ?_, ?_⟩
  · intro hlt
    rw [hval, if_pos hlt]
  · intro hge
    rw [hval, if_neg (by omega)]
  · rw [hval]
    split <;> omega
  · rw [hval, hval]
    split <;> split <;> omega
  · rw [hd0]
    linarith
  · rw [hd1]
    linarith
  · rw [hd0, abs_neg, abs_of_pos hLS, one_mul]
  · rw [hd1, abs_of_pos hLS, one_mul]

/-- C4 witness: the amended statement at `parallelCount = 4`,
`parallelIdx = 1`, `length = 2`, `parallelSpread = 3`. -/
theorem c4_even_parallel_amended_witness :
    ((1 : Int) < 4 / 2 → parallelDeviationIdx 4 1 = 1 - 4 / 2) ∧
    ((4 : Int) / 2 ≤ 1 → parallelDeviationIdx 4 1 = 1 - 4 / 2 + 1) ∧
    parallelDeviationIdx 4 1 ≠ 0 ∧
    parallelDeviationIdx 4 (4 - 1 - 1) = -parallelDeviationIdx 4 1 ∧
    parallelDeviationIdx 2 0 = -1 ∧ parallelDeviationIdx 2 1 = 1 ∧
    deviationSizeOf 2 3 2 0 < 0 ∧ 0 < deviationSizeOf 2 3 2 1 ∧
    |deviationSizeOf 2 3 2 0| = 1 * (2 * 3) ∧
    |deviationSizeOf 2 3 2 1| = 1 * (2 * 3) :=
  c4_even_parallel_amended 4 1 2 3 (by decide) (by decide) (by decide) (by decide)
    (by norm_num) (by norm_num)

end ReactD3Graph
